import Mathlib

/-!
# Verification of the anthropic-types schema model

Shallow embedding of the serde-derived wire codec of the `anthropic-types`
crate (`src/messages.rs`, `src/models.rs`, `src/tool_choice.rs`).

Conventions of the embedding:
- A raw wire payload is a `Json` value (the counterpart of `serde_json::Value`);
  JSON numbers are exact rationals, which is faithful here because the codec
  only passes numbers through and compares them, never computes with them.
- Each Rust type with `#[derive(Serialize, Deserialize)]` becomes a Lean type
  together with an `encode…` function (its derived `Serialize` impl, honouring
  every `#[serde(rename)]`, `#[serde(skip_serializing_if)]` and field order)
  and a `decode…` function (its derived `Deserialize` impl: required fields
  are reported missing in declaration order, `Option` fields treat an absent
  key and an explicit `null` both as `none`, and unknown object keys are
  ignored, as serde does without `deny_unknown_fields`).
- The external `mcp_protocol` types `Tool` and `ToolContent` are opaque to this
  crate; they are embedded as wrappers around a raw `Json` value that the codec
  preserves verbatim.
- Rust `u32` fields become `Nat` with the 2^32 bound enforced at decode time;
  `f32`/`f64` fields become `ℚ` (the codec does no floating-point arithmetic).
-/

/-- A raw JSON value, the counterpart of `serde_json::Value`. Numbers are kept
as exact rationals. -/
inductive Json where
  | null
  | bool (b : Bool)
  | num (q : ℚ)
  | str (s : String)
  | arr (items : List Json)
  | obj (entries : List (String × Json))

/-- First binding of a key in a JSON object, `none` on non-objects. This is the
field lookup the derived deserializers perform on a map payload. -/
def Json.getField : Json → String → Option Json
  | .obj entries, key => entries.lookup key
  | _, _ => none

/-- Structured decode errors, mirroring how `serde_json` classifies failures of
the derived impls: a required field absent from the map, an unrecognized
discriminator value, a value of the wrong shape for a field, and the generic
failure of an untagged union when no variant matches. -/
inductive DecodeError where
  | MissingField (name : String)
  | UnknownVariant (tag : String)
  | TypeMismatch (what : String)
  | MalformedPayload
deriving DecidableEq

/-- Decode a required struct field: absent key is `MissingField` (serde checks
these in declaration order after draining the map), otherwise the field's own
decoder runs and its result is passed to the continuation. -/
def reqField (j : Json) (name : String) (dec : Json → Except DecodeError α)
    (k : α → Except DecodeError β) : Except DecodeError β :=
  match j.getField name with
  | none => .error (.MissingField name)
  | some v =>
    match dec v with
    | .error e => .error e
    | .ok a => k a

/-- Decode an `Option` struct field: serde maps both an absent key and an
explicit `null` to `None`, and any other value through the inner decoder. -/
def optField (j : Json) (name : String) (dec : Json → Except DecodeError α)
    (k : Option α → Except DecodeError β) : Except DecodeError β :=
  match j.getField name with
  | none => k none
  | some .null => k none
  | some v =>
    match dec v with
    | .error e => .error e
    | .ok a => k (some a)

/-- Decode each element of a sequence, failing on the first element failure,
as the derived `Vec<T>` visitor does. -/
def decodeListAux (dec : Json → Except DecodeError α) : List Json → Except DecodeError (List α)
  | [] => .ok []
  | j :: rest =>
    match dec j with
    | .error e => .error e
    | .ok a =>
      match decodeListAux dec rest with
      | .error e => .error e
      | .ok l => .ok (a :: l)

/-- Decode a `Vec<T>` field: the payload must be a JSON array. -/
def decodeList (dec : Json → Except DecodeError α) : Json → Except DecodeError (List α)
  | .arr elems => decodeListAux dec elems
  | _ => .error (.TypeMismatch "sequence")

/-- Decode a Rust `String` field. -/
def decodeString : Json → Except DecodeError String
  | .str s => .ok s
  | _ => .error (.TypeMismatch "string")

/-- Decode a Rust `bool` field. -/
def decodeBool : Json → Except DecodeError Bool
  | .bool b => .ok b
  | _ => .error (.TypeMismatch "bool")

/-- Decode a Rust `u32` field: an integral JSON number within `[0, 2^32)`. -/
def decodeU32 (j : Json) : Except DecodeError Nat :=
  match j with
  | .num q =>
    if q.den = 1 ∧ 0 ≤ q.num ∧ q.num < 4294967296 then .ok q.num.toNat
    else .error (.TypeMismatch "u32")
  | _ => .error (.TypeMismatch "u32")

/-- Decode a Rust `f32`/`f64` field: any JSON number, passed through. -/
def decodeNum : Json → Except DecodeError ℚ
  | .num q => .ok q
  | _ => .error (.TypeMismatch "number")

/-- Decode a `serde_json::Value` field: every JSON value deserializes to
itself. -/
def decodeJson (j : Json) : Except DecodeError Json := .ok j

/-! ## Content Block Model (`src/messages.rs`) -/

/-- `CacheControl` — cache control configuration; the `cache_type` field is
renamed to `type` on the wire. -/
structure CacheControl where
  cache_type : String
deriving DecidableEq

/-- `SystemMessage` — a single system message; `message_type` is renamed to
`type` on the wire and `cache_control` is skipped when `None`. -/
structure SystemMessage where
  message_type : String
  text : String
  cache_control : Option CacheControl
deriving DecidableEq

/-- `SystemMessageFormat` — untagged union: a bare string or an array of
structured system messages, tried in that declaration order. -/
inductive SystemMessageFormat where
  | String (s : String)
  | Array (msgs : List SystemMessage)
deriving DecidableEq

/-- `ChunkedText` — one chunk of a custom document source; its first field is
renamed to `type` on the wire. -/
structure ChunkedText where
  type : String
  text : String
deriving DecidableEq

/-- `DocumentCitations` — the citations toggle of a document block. -/
structure DocumentCitations where
  enabled : Bool
deriving DecidableEq

/-- `DocumentSource` — internally tagged union (`tag = "type"`) with wire
discriminators `text`, `base64`, `content`, `url`. -/
inductive DocumentSource where
  | Text (media_type data : String)
  | Base64 (media_type data : String)
  | Custom (content : List ChunkedText)
  | Url (url : String)
deriving DecidableEq

/-- `mcp_protocol::tool::ToolContent` — external to this crate; the schema
model treats it as an opaque pre-decoded value preserved verbatim. -/
structure ToolContent where
  val : Json

/-- `MessageContent` — the content-block union, internally tagged by `type`
with wire discriminators `text`, `tool_use`, `tool_result`, `document`.
`ToolResult.is_error` and all four optional `Document` fields carry
`#[serde(skip_serializing_if = "Option::is_none")]`. -/
inductive MessageContent where
  | Text (text : String)
  | ToolUse (id name : String) (input : Json)
  | ToolResult (tool_use_id : String) (content : List ToolContent) (is_error : Option Bool)
  | Document (source : DocumentSource) (title context : Option String)
      (citations : Option DocumentCitations) (cache_control : Option CacheControl)

/-- Serialize an optional field annotated `skip_serializing_if = "Option::is_none"`:
the key is omitted entirely when the value is absent. -/
def encodeOptField (name : String) (o : Option α) (enc : α → Json) : List (String × Json) :=
  match o with
  | none => []
  | some a => [(name, enc a)]

/-- Serialize an optional field with no skip annotation: an absent value is
emitted as an explicit `null`. -/
def encodeNullable (o : Option α) (enc : α → Json) : Json :=
  match o with
  | none => .null
  | some a => enc a

/-- Derived `Serialize` for `CacheControl`. -/
def encodeCacheControl (c : CacheControl) : Json :=
  .obj [("type", .str c.cache_type)]

/-- Derived `Deserialize` for `CacheControl`. -/
def decodeCacheControl (j : Json) : Except DecodeError CacheControl :=
  reqField j "type" decodeString fun t =>
  .ok ⟨t⟩

/-- Derived `Serialize` for `SystemMessage`. -/
def encodeSystemMessage (m : SystemMessage) : Json :=
  .obj ([("type", .str m.message_type), ("text", .str m.text)]
    ++ encodeOptField "cache_control" m.cache_control encodeCacheControl)

/-- Derived `Deserialize` for `SystemMessage`. -/
def decodeSystemMessage (j : Json) : Except DecodeError SystemMessage :=
  reqField j "type" decodeString fun t =>
  reqField j "text" decodeString fun x =>
  optField j "cache_control" decodeCacheControl fun cc =>
  .ok ⟨t, x, cc⟩

/-- Derived `Serialize` for the untagged `SystemMessageFormat`. -/
def encodeSystemMessageFormat : SystemMessageFormat → Json
  | .String s => .str s
  | .Array msgs => .arr (msgs.map encodeSystemMessage)

/-- Derived `Deserialize` for the untagged `SystemMessageFormat`: the
`String` variant is tried first, then the `Array` variant; when neither
matches, serde reports the generic untagged-union failure. -/
def decodeSystemMessageFormat : Json → Except DecodeError SystemMessageFormat
  | .str s => .ok (.String s)
  | .arr elems =>
    match decodeListAux decodeSystemMessage elems with
    | .ok msgs => .ok (.Array msgs)
    | .error _ => .error .MalformedPayload
  | _ => .error .MalformedPayload

/-- Derived `Serialize` for `ChunkedText`. -/
def encodeChunkedText (c : ChunkedText) : Json :=
  .obj [("type", .str c.type), ("text", .str c.text)]

/-- Derived `Deserialize` for `ChunkedText`. -/
def decodeChunkedText (j : Json) : Except DecodeError ChunkedText :=
  reqField j "type" decodeString fun t =>
  reqField j "text" decodeString fun x =>
  .ok ⟨t, x⟩

/-- Derived `Serialize` for `DocumentCitations`. -/
def encodeDocumentCitations (c : DocumentCitations) : Json :=
  .obj [("enabled", .bool c.enabled)]

/-- Derived `Deserialize` for `DocumentCitations`. -/
def decodeDocumentCitations (j : Json) : Except DecodeError DocumentCitations :=
  reqField j "enabled" decodeBool fun b =>
  .ok ⟨b⟩

/-- Derived `Serialize` for the internally tagged `DocumentSource`: the
discriminator is written first, then the variant's fields. -/
def encodeDocumentSource : DocumentSource → Json
  | .Text media_type data =>
    .obj [("type", .str "text"), ("media_type", .str media_type), ("data", .str data)]
  | .Base64 media_type data =>
    .obj [("type", .str "base64"), ("media_type", .str media_type), ("data", .str data)]
  | .Custom content =>
    .obj [("type", .str "content"), ("content", .arr (content.map encodeChunkedText))]
  | .Url url =>
    .obj [("type", .str "url"), ("url", .str url)]

/-- Derived `Deserialize` for `DocumentSource`: dispatch on the `type`
discriminator, reject unrecognized discriminators with `UnknownVariant`. -/
def decodeDocumentSource (j : Json) : Except DecodeError DocumentSource :=
  match j.getField "type" with
  | some (.str tag) =>
    if tag = "text" then
      reqField j "media_type" decodeString fun mt =>
      reqField j "data" decodeString fun d =>
      .ok (.Text mt d)
    else if tag = "base64" then
      reqField j "media_type" decodeString fun mt =>
      reqField j "data" decodeString fun d =>
      .ok (.Base64 mt d)
    else if tag = "content" then
      reqField j "content" (decodeList decodeChunkedText) fun c =>
      .ok (.Custom c)
    else if tag = "url" then
      reqField j "url" decodeString fun u =>
      .ok (.Url u)
    else .error (.UnknownVariant tag)
  | some _ => .error (.TypeMismatch "type")
  | none => .error (.MissingField "type")

/-- Serialization of the external `ToolContent`: the opaque value itself. -/
def encodeToolContent (c : ToolContent) : Json := c.val

/-- Deserialization of the external `ToolContent`: preserved verbatim. -/
def decodeToolContent (j : Json) : Except DecodeError ToolContent := .ok ⟨j⟩

/-- Derived `Serialize` for the internally tagged `MessageContent`: the
discriminator is written first, then the variant's fields, with the
skip-annotated optional fields omitted when absent. -/
def encodeMessageContent : MessageContent → Json
  | .Text text => .obj [("type", .str "text"), ("text", .str text)]
  | .ToolUse id name input =>
    .obj [("type", .str "tool_use"), ("id", .str id), ("name", .str name), ("input", input)]
  | .ToolResult tool_use_id content is_error =>
    .obj ([("type", .str "tool_result"), ("tool_use_id", .str tool_use_id),
      ("content", .arr (content.map encodeToolContent))]
      ++ encodeOptField "is_error" is_error Json.bool)
  | .Document source title context citations cache_control =>
    .obj ([("type", .str "document"), ("source", encodeDocumentSource source)]
      ++ encodeOptField "title" title Json.str
      ++ encodeOptField "context" context Json.str
      ++ encodeOptField "citations" citations encodeDocumentCitations
      ++ encodeOptField "cache_control" cache_control encodeCacheControl)

/-- Derived `Deserialize` for `MessageContent`: dispatch on the `type`
discriminator; a discriminator outside the four recognized strings is an
`UnknownVariant` error, and unknown extra fields are ignored. -/
def decodeMessageContent (j : Json) : Except DecodeError MessageContent :=
  match j.getField "type" with
  | some (.str tag) =>
    if tag = "text" then
      reqField j "text" decodeString fun t =>
      .ok (.Text t)
    else if tag = "tool_use" then
      reqField j "id" decodeString fun i =>
      reqField j "name" decodeString fun n =>
      reqField j "input" decodeJson fun inp =>
      .ok (.ToolUse i n inp)
    else if tag = "tool_result" then
      reqField j "tool_use_id" decodeString fun tid =>
      reqField j "content" (decodeList decodeToolContent) fun c =>
      optField j "is_error" decodeBool fun ie =>
      .ok (.ToolResult tid c ie)
    else if tag = "document" then
      reqField j "source" decodeDocumentSource fun src =>
      optField j "title" decodeString fun ti =>
      optField j "context" decodeString fun cx =>
      optField j "citations" decodeDocumentCitations fun ci =>
      optField j "cache_control" decodeCacheControl fun cc =>
      .ok (.Document src ti cx ci cc)
    else .error (.UnknownVariant tag)
  | some _ => .error (.TypeMismatch "type")
  | none => .error (.MissingField "type")

/-! ## Message Envelope Model (`src/messages.rs`) -/

/-- `MessageContentFormat` — untagged union: a message's content is either a
bare string or a structured list of content blocks, tried in that declaration
order. Both arms are live in-memory representations. -/
inductive MessageContentFormat where
  | String (s : String)
  | Structured (blocks : List MessageContent)

/-- `Message` — role plus content; the role is a plain unvalidated string. -/
structure Message where
  role : String
  content : MessageContentFormat

/-- Derived `Serialize` for the untagged `MessageContentFormat`. -/
def encodeMessageContentFormat : MessageContentFormat → Json
  | .String s => .str s
  | .Structured blocks => .arr (blocks.map encodeMessageContent)

/-- Derived `Deserialize` for the untagged `MessageContentFormat`: the
`String` variant is tried first, then the `Structured` variant; when neither
matches, serde reports the generic untagged-union failure. -/
def decodeMessageContentFormat : Json → Except DecodeError MessageContentFormat
  | .str s => .ok (.String s)
  | .arr elems =>
    match decodeListAux decodeMessageContent elems with
    | .ok blocks => .ok (.Structured blocks)
    | .error _ => .error .MalformedPayload
  | _ => .error .MalformedPayload

/-- Derived `Serialize` for `Message`. -/
def encodeMessage (m : Message) : Json :=
  .obj [("role", .str m.role), ("content", encodeMessageContentFormat m.content)]

/-- Derived `Deserialize` for `Message`. -/
def decodeMessage (j : Json) : Except DecodeError Message :=
  reqField j "role" decodeString fun r =>
  reqField j "content" decodeMessageContentFormat fun c =>
  .ok ⟨r, c⟩

/-! ## Request/Response Model (`src/messages.rs`, `src/tool_choice.rs`) -/

/-- `ToolChoice` (`src/tool_choice.rs`) — internally tagged union with wire
discriminators `auto`, `tool`, `any`, `none`. -/
inductive ToolChoice where
  | Auto
  | Tool (name : String)
  | Any
  | None
deriving DecidableEq

/-- Derived `Serialize` for `ToolChoice`. -/
def encodeToolChoice : ToolChoice → Json
  | .Auto => .obj [("type", .str "auto")]
  | .Tool name => .obj [("type", .str "tool"), ("name", .str name)]
  | .Any => .obj [("type", .str "any")]
  | .None => .obj [("type", .str "none")]

/-- Derived `Deserialize` for `ToolChoice`. -/
def decodeToolChoice (j : Json) : Except DecodeError ToolChoice :=
  match j.getField "type" with
  | some (.str tag) =>
    if tag = "auto" then .ok .Auto
    else if tag = "tool" then
      reqField j "name" decodeString fun n =>
      .ok (.Tool n)
    else if tag = "any" then .ok .Any
    else if tag = "none" then .ok .None
    else .error (.UnknownVariant tag)
  | some _ => .error (.TypeMismatch "type")
  | none => .error (.MissingField "type")

/-- `mcp_protocol::tool::Tool` — external to this crate; embedded as an opaque
value preserved verbatim. -/
structure Tool where
  val : Json

/-- Serialization of the external `Tool`: the opaque value itself. -/
def encodeTool (t : Tool) : Json := t.val

/-- Deserialization of the external `Tool`: preserved verbatim. -/
def decodeTool (j : Json) : Except DecodeError Tool := .ok ⟨j⟩

/-- `CompletionRequest` — the completion request record. `max_tokens` is a
required `u32`; the five trailing fields are `Option`s annotated
`skip_serializing_if = "Option::is_none"`. The struct has no open extension
mapping: it consists of exactly these eight fields, and the derived
deserializer ignores any other key. -/
structure CompletionRequest where
  model : String
  messages : List Message
  max_tokens : Nat
  temperature : Option ℚ
  system : Option SystemMessageFormat
  tools : Option (List Tool)
  tool_choice : Option ToolChoice
  disable_parallel_tool_use : Option Bool

/-- Derived `Serialize` for `CompletionRequest`: only the eight declared
fields are written, the absent optionals omitted. -/
def encodeCompletionRequest (r : CompletionRequest) : Json :=
  .obj ([("model", .str r.model),
    ("messages", .arr (r.messages.map encodeMessage)),
    ("max_tokens", .num r.max_tokens)]
    ++ encodeOptField "temperature" r.temperature Json.num
    ++ encodeOptField "system" r.system encodeSystemMessageFormat
    ++ encodeOptField "tools" r.tools (fun ts => .arr (ts.map encodeTool))
    ++ encodeOptField "tool_choice" r.tool_choice encodeToolChoice
    ++ encodeOptField "disable_parallel_tool_use" r.disable_parallel_tool_use Json.bool)

/-- Derived `Deserialize` for `CompletionRequest`: required fields are
reported missing in declaration order (`model`, `messages`, `max_tokens`),
absent optionals become `none`, and unrecognized keys are ignored. -/
def decodeCompletionRequest (j : Json) : Except DecodeError CompletionRequest :=
  reqField j "model" decodeString fun model =>
  reqField j "messages" (decodeList decodeMessage) fun messages =>
  reqField j "max_tokens" decodeU32 fun mt =>
  optField j "temperature" decodeNum fun temp =>
  optField j "system" decodeSystemMessageFormat fun sys =>
  optField j "tools" (decodeList decodeTool) fun tools =>
  optField j "tool_choice" decodeToolChoice fun tc =>
  optField j "disable_parallel_tool_use" decodeBool fun dp =>
  .ok ⟨model, messages, mt, temp, sys, tools, tc, dp⟩

/-- `Usage` — token accounting. The two cache counts are `Option<u32>` with
no `skip_serializing_if` annotation, so serialization writes them even when
absent (as explicit `null`). -/
structure Usage where
  input_tokens : Nat
  output_tokens : Nat
  cache_read_input_tokens : Option Nat
  cache_creation_input_tokens : Option Nat
deriving DecidableEq

/-- Derived `Serialize` for `Usage`: all four fields are always written. -/
def encodeUsage (u : Usage) : Json :=
  .obj [("input_tokens", .num u.input_tokens),
    ("output_tokens", .num u.output_tokens),
    ("cache_read_input_tokens", encodeNullable u.cache_read_input_tokens (fun n => .num n)),
    ("cache_creation_input_tokens", encodeNullable u.cache_creation_input_tokens (fun n => .num n))]

/-- Derived `Deserialize` for `Usage`. -/
def decodeUsage (j : Json) : Except DecodeError Usage :=
  reqField j "input_tokens" decodeU32 fun i =>
  reqField j "output_tokens" decodeU32 fun o =>
  optField j "cache_read_input_tokens" decodeU32 fun cr =>
  optField j "cache_creation_input_tokens" decodeU32 fun cc =>
  .ok ⟨i, o, cr, cc⟩

/-- `StopReason` — the four-variant stop-reason enumeration; unit variants,
wire-encoded as the bare strings `end_turn`, `max_tokens`, `stop_sequence`,
`tool_use`. -/
inductive StopReason where
  | EndTurn
  | MaxTokens
  | StopSequence
  | ToolUse
deriving DecidableEq

/-- Derived `Serialize` for `StopReason`. -/
def encodeStopReason : StopReason → Json
  | .EndTurn => .str "end_turn"
  | .MaxTokens => .str "max_tokens"
  | .StopSequence => .str "stop_sequence"
  | .ToolUse => .str "tool_use"

/-- Derived `Deserialize` for `StopReason`: a unit-variant enum expects its
variant identifier as a bare string; `null` is not a variant identifier and
fails with a type error. -/
def decodeStopReason (j : Json) : Except DecodeError StopReason :=
  match j with
  | .str tag =>
    if tag = "end_turn" then .ok .EndTurn
    else if tag = "max_tokens" then .ok .MaxTokens
    else if tag = "stop_sequence" then .ok .StopSequence
    else if tag = "tool_use" then .ok .ToolUse
    else .error (.UnknownVariant tag)
  | _ => .error (.TypeMismatch "StopReason")

/-- `CompletionResponse` — the completion response record. `stop_reason` is a
plain (non-`Option`) `StopReason` field; `stop_sequence` is an `Option` with
no skip annotation; `message_type` is renamed to `type` on the wire. -/
structure CompletionResponse where
  content : List MessageContent
  id : String
  model : String
  role : String
  stop_reason : StopReason
  stop_sequence : Option String
  message_type : String
  usage : Usage

/-- Derived `Serialize` for `CompletionResponse`: every field is always
written, an absent `stop_sequence` as explicit `null`. -/
def encodeCompletionResponse (r : CompletionResponse) : Json :=
  .obj [("content", .arr (r.content.map encodeMessageContent)),
    ("id", .str r.id),
    ("model", .str r.model),
    ("role", .str r.role),
    ("stop_reason", encodeStopReason r.stop_reason),
    ("stop_sequence", encodeNullable r.stop_sequence Json.str),
    ("type", .str r.message_type),
    ("usage", encodeUsage r.usage)]

/-- Derived `Deserialize` for `CompletionResponse`: `stop_reason` is a
required field decoded by the enum's deserializer, so an absent key is
`MissingField` and a `null` value is a type error. -/
def decodeCompletionResponse (j : Json) : Except DecodeError CompletionResponse :=
  reqField j "content" (decodeList decodeMessageContent) fun c =>
  reqField j "id" decodeString fun i =>
  reqField j "model" decodeString fun m =>
  reqField j "role" decodeString fun ro =>
  reqField j "stop_reason" decodeStopReason fun sr =>
  optField j "stop_sequence" decodeString fun ss =>
  reqField j "type" decodeString fun ty =>
  reqField j "usage" decodeUsage fun u =>
  .ok ⟨c, i, m, ro, sr, ss, ty, u⟩

/-! ## Capability Table (`src/models.rs`) -/

/-- `ModelPricing` — per-million-token costs. The Rust fields are `f64`
decimal literals taken from a fixed table and never computed with, so they
are embedded as exact rationals. -/
structure ModelPricing where
  input_cost_per_million_tokens : ℚ
  output_cost_per_million_tokens : ℚ
deriving DecidableEq

/-- `ModelInfo` — static reference data about a model. -/
structure ModelInfo where
  id : String
  display_name : String
  max_tokens : Nat
  provider : String
  pricing : Option ModelPricing

namespace ModelInfo

/-- `ModelInfo::get_max_tokens` — maximum tokens for a model id, by exact
string match over the compiled-in table, with a conservative default of
100000 for unknown ids. -/
def get_max_tokens (model_id : String) : Nat :=
  match model_id with
  | "claude-3-7-sonnet-20250219" => 200000
  | "claude-3-5-sonnet-20241022" | "claude-3-5-haiku-20241022"
  | "claude-3-5-sonnet-20240620" => 200000
  | "claude-3-opus-20240229" => 200000
  | "claude-3-sonnet-20240229" => 200000
  | "claude-3-haiku-20240307" => 200000
  | "claude-2.1" | "claude-2.0" => 100000
  | _ => 100000

/-- `ModelInfo::get_pricing` — pricing for a model id, by exact string match
over the compiled-in table, with the fallback pair 8.00 / 24.00 for unknown
ids. -/
def get_pricing (model_id : String) : ModelPricing :=
  match model_id with
  | "claude-3-7-sonnet-20250219" => ⟨3, 15⟩
  | "claude-3-5-sonnet-20241022" | "claude-3-5-sonnet-20240620" => ⟨3, 15⟩
  | "claude-3-5-haiku-20241022" => ⟨4/5, 4⟩
  | "claude-3-opus-20240229" => ⟨15, 75⟩
  | "claude-3-haiku-20240307" => ⟨1/4, 5/4⟩
  | "claude-3-sonnet-20240229" => ⟨3, 15⟩
  | _ => ⟨8, 24⟩

end ModelInfo

/-- A syntactically valid completion-response payload whose `stop_reason` is
an explicit `null`, as the streaming-in-progress state is described in the
`stop_reason` field's own documentation. -/
def nullStopReasonPayload : Json :=
  .obj [("content", .arr []), ("id", .str "msg_1"), ("model", .str "m"),
    ("role", .str "assistant"), ("stop_reason", .null), ("stop_sequence", .null),
    ("type", .str "message"),
    ("usage", .obj [("input_tokens", .num 1), ("output_tokens", .num 2),
      ("cache_read_input_tokens", .null), ("cache_creation_input_tokens", .null)])]

/-! ## Shared round-trip lemmas -/

/-- Decoding a sequence whose every element was produced by an encoder that
the decoder inverts recovers the original list. -/
theorem decodeListAux_map_ok (dec : Json → Except DecodeError α) (enc : α → Json)
    (h : ∀ a, dec (enc a) = .ok a) :
    ∀ l : List α, decodeListAux dec (l.map enc) = .ok l
  | [] => rfl
  | a :: t => by
    simp [decodeListAux, h a, decodeListAux_map_ok dec enc h t]

/-- The `DocumentSource` codec is a round trip on all four variants. -/
theorem documentSource_roundtrip (s : DocumentSource) :
    decodeDocumentSource (encodeDocumentSource s) = .ok s := by
  cases s with
  | Text mt d => rfl
  | Base64 mt d => rfl
  | Url u => rfl
  | Custom c =>
    simp [encodeDocumentSource, decodeDocumentSource, Json.getField, List.lookup, reqField,
      decodeList, decodeListAux_map_ok decodeChunkedText encodeChunkedText (fun a => rfl)]

/-- The `MessageContent` codec is a round trip on all four variants. -/
theorem messageContent_roundtrip (b : MessageContent) :
    decodeMessageContent (encodeMessageContent b) = .ok b := by
  cases b with
  | Text t => rfl
  | ToolUse i n inp => rfl
  | ToolResult tid c ie =>
    cases ie <;>
      simp [encodeMessageContent, decodeMessageContent, Json.getField, List.lookup, reqField,
        optField, decodeString, decodeList, decodeBool, encodeOptField,
        decodeListAux_map_ok decodeToolContent encodeToolContent (fun a => rfl)]
  | Document src ti cx ci cc =>
    cases ti <;> cases cx <;> cases ci <;> cases cc <;>
      simp [encodeMessageContent, decodeMessageContent, Json.getField, List.lookup, reqField,
        optField, decodeString, encodeOptField, documentSource_roundtrip,
        decodeDocumentCitations, decodeCacheControl, decodeBool,
        encodeCacheControl, encodeDocumentCitations]

/-- The `Message` codec is a round trip on both content shapes. -/
theorem message_roundtrip (m : Message) :
    decodeMessage (encodeMessage m) = .ok m := by
  obtain ⟨r, c⟩ := m
  cases c with
  | String s => rfl
  | Structured blocks =>
    simp [encodeMessage, decodeMessage, reqField, Json.getField, List.lookup, decodeString,
      encodeMessageContentFormat, decodeMessageContentFormat,
      decodeListAux_map_ok decodeMessageContent encodeMessageContent messageContent_roundtrip]

/-! ## Claim theorems -/

/-- Claim C1: for every `ContentBlock` value of each of the four variants
(`Text`, `ToolUse`, `ToolResult`, `Document`), and for `Document` with each of
the four `DocumentSource` variants, encoding and then decoding yields a value
equal to the original. -/
theorem contentBlock_encode_decode_roundtrip (b : MessageContent) :
    decodeMessageContent (encodeMessageContent b) = .ok b :=
  messageContent_roundtrip b

/-- Claim C2, counterexample: decoding a message whose raw content is the bare
string `"hi"` succeeds, but the decoded content is the bare-string arm
`MessageContentFormat.String "hi"`, which is not the one-element structured
sequence containing `Text "hi"` that the claim asserts. -/
theorem bareString_content_not_normalized_cex :
    decodeMessage (.obj [("role", .str "user"), ("content", .str "hi")]) =
      .ok ⟨"user", .String "hi"⟩ ∧
    MessageContentFormat.String "hi" ≠ .Structured [.Text "hi"] :=
  ⟨rfl, fun h => nomatch h⟩

/-- Claim C2 as amended: for every message whose raw content is a bare string
`s`, decode succeeds and the resulting `Message` retains the bare string in
the `String` arm of the `MessageContentFormat` union; no normalization to a
`Text` block occurs. -/
theorem bareString_content_retained (r s : String) :
    decodeMessage (.obj [("role", .str r), ("content", .str s)]) = .ok ⟨r, .String s⟩ := rfl

/-- Claim C3: evaluating the response decoder at a payload whose
`stop_reason` is `null` shows that decoding fails with a type error, because
the `stop_reason` field of `CompletionResponse` is a plain four-variant
`StopReason` with no nullable wrapper — contradicting the field's own
documentation, which lists `null` among its legal values. -/
theorem nullStopReason_decode_fails :
    decodeCompletionResponse nullStopReasonPayload = .error (.TypeMismatch "StopReason") := rfl

/-- Claim C4, counterexample: decoding a complete request payload carrying the
unrecognized field `future_field` succeeds, but the decoded request (which has
no `additional_params` mapping) re-encodes without that field, so the
decode-then-encode round trip loses it. -/
theorem unknownField_dropped_cex :
    decodeCompletionRequest (.obj [("model", .str "m"), ("messages", .arr []),
      ("max_tokens", .num 16), ("future_field", .str "x")]) =
      .ok ⟨"m", [], 16, none, none, none, none, none⟩ ∧
    (encodeCompletionRequest ⟨"m", [], 16, none, none, none, none, none⟩).getField "future_field" =
      none :=
  ⟨rfl, rfl⟩

/-- Claim C4 as amended: for every request payload that contains all required
fields plus an unrecognized top-level field, decode succeeds but silently
discards that field — `CompletionRequest` has no open `additional_params`
mapping — and encode of the decoded value does not reproduce it. -/
theorem unknownField_dropped (v : Json) :
    decodeCompletionRequest (.obj [("model", .str "m"), ("messages", .arr []),
      ("max_tokens", .num 16), ("future_field", v)]) =
      .ok ⟨"m", [], 16, none, none, none, none, none⟩ ∧
    (encodeCompletionRequest ⟨"m", [], 16, none, none, none, none, none⟩).getField "future_field" =
      none :=
  ⟨rfl, rfl⟩

/-- Claim C5, counterexample: encoding a `Usage` whose two cache-accounting
counts are absent emits both fields as explicit `null` rather than omitting
them. -/
theorem usage_absent_emits_null_cex :
    encodeUsage ⟨1, 2, none, none⟩ =
      .obj [("input_tokens", .num 1), ("output_tokens", .num 2),
        ("cache_read_input_tokens", .null), ("cache_creation_input_tokens", .null)] := rfl

/-- Claim C5 as amended: encoding omits absent optional fields only where the
field carries the skip annotation — in particular all four optional fields of
a `Document` block — while the two cache-accounting counts of `Usage` and the
response's `stop_sequence`, which lack the annotation, are emitted as explicit
`null` when absent. -/
theorem optional_field_emission :
    (∀ src : DocumentSource,
      (encodeMessageContent (.Document src none none none none)).getField "title" = none ∧
      (encodeMessageContent (.Document src none none none none)).getField "context" = none ∧
      (encodeMessageContent (.Document src none none none none)).getField "citations" = none ∧
      (encodeMessageContent (.Document src none none none none)).getField "cache_control" = none) ∧
    (∀ i o : Nat,
      (encodeUsage ⟨i, o, none, none⟩).getField "cache_read_input_tokens" = some .null ∧
      (encodeUsage ⟨i, o, none, none⟩).getField "cache_creation_input_tokens" = some .null) ∧
    (∀ (c : List MessageContent) (i m ro ty : String) (sr : StopReason) (u : Usage),
      (encodeCompletionResponse ⟨c, i, m, ro, sr, none, ty, u⟩).getField "stop_sequence" =
        some .null) :=
  ⟨fun _ => ⟨rfl, rfl, rfl, rfl⟩, fun _ _ => ⟨rfl, rfl⟩, fun _ _ _ _ _ _ _ => rfl⟩

/-- Claim C6, counterexample: the payload carrying only a valid `messages`
field lacks `max_tokens`, yet its decode fails with `MissingField "model"` —
required fields are reported missing in declaration order, so not every
payload lacking `max_tokens` produces `MissingField "max_tokens"`. -/
theorem missing_maxTokens_error_cex :
    (Json.obj [("messages", .arr [])]).getField "max_tokens" = none ∧
    decodeCompletionRequest (.obj [("messages", .arr [])]) = .error (.MissingField "model") ∧
    DecodeError.MissingField "model" ≠ .MissingField "max_tokens" :=
  ⟨rfl, rfl, by decide⟩

/-- Claim C6 as amended: for every request payload whose `model` is a string
and whose `messages` is a sequence of valid messages but which lacks
`max_tokens`, decode fails with `MissingField "max_tokens"` — the error value
carries no partially-constructed request and no default is substituted. -/
theorem missing_maxTokens_rejected (m : String) (msgs : List Message) :
    decodeCompletionRequest
        (.obj [("model", .str m), ("messages", .arr (msgs.map encodeMessage))]) =
      .error (.MissingField "max_tokens") := by
  simp [decodeCompletionRequest, reqField, Json.getField, List.lookup, decodeString, decodeList,
    decodeListAux_map_ok decodeMessage encodeMessage message_roundtrip]

/-- Claim C7: every raw content-block payload whose `type` discriminator is
not one of the four recognized strings fails to decode with an
`UnknownVariant` error. -/
theorem unknown_discriminator_rejected (tag : String) (rest : List (String × Json))
    (h : tag ∉ ["text", "tool_use", "tool_result", "document"]) :
    decodeMessageContent (.obj (("type", .str tag) :: rest)) = .error (.UnknownVariant tag) := by
  simp only [List.mem_cons, List.not_mem_nil, or_false, not_or] at h
  obtain ⟨h1, h2, h3, h4⟩ := h
  simp [decodeMessageContent, Json.getField, List.lookup, h1, h2, h3, h4]

/-- Claim C7 witness: the discriminator `unknown_kind` is not recognized and
is rejected with `UnknownVariant "unknown_kind"`. -/
theorem unknown_discriminator_rejected_witness :
    "unknown_kind" ∉ ["text", "tool_use", "tool_result", "document"] ∧
    decodeMessageContent (.obj [("type", .str "unknown_kind")]) =
      .error (.UnknownVariant "unknown_kind") :=
  ⟨by decide, unknown_discriminator_rejected "unknown_kind" [] (by decide)⟩

/-- Claim C8: `get_max_tokens` returns the 100000 default and `get_pricing`
the 8.00/24.00 fallback pair for an unknown model id, while
`claude-3-7-sonnet-20250219` gets 200000 tokens and the 3.00/15.00 pair; both
functions are total and match by exact string equality. -/
theorem capability_fallback_and_table :
    ModelInfo.get_max_tokens "nonexistent-model-id" = 100000 ∧
    ModelInfo.get_pricing "nonexistent-model-id" = ⟨8, 24⟩ ∧
    ModelInfo.get_max_tokens "claude-3-7-sonnet-20250219" = 200000 ∧
    ModelInfo.get_pricing "claude-3-7-sonnet-20250219" = ⟨3, 15⟩ :=
  ⟨rfl, rfl, rfl, rfl⟩

/-- Claim C9: message decode places no constraint on the role string — for
every string `r` (the empty string included) and every valid structured
content, decode succeeds with the decoded role equal to `r`. -/
theorem role_unconstrained (r : String) (blocks : List MessageContent) :
    decodeMessage (.obj [("role", .str r), ("content", .arr (blocks.map encodeMessageContent))]) =
      .ok ⟨r, .Structured blocks⟩ := by
  simp [decodeMessage, reqField, Json.getField, List.lookup, decodeString,
    decodeMessageContentFormat,
    decodeListAux_map_ok decodeMessageContent encodeMessageContent messageContent_roundtrip]

/-- Claim C10: request decode places no range constraint on `temperature` —
every numeric value, values outside the documented `[0, 1]` interval such as
`2.5` or `-1.0` included, is accepted and preserved. -/
theorem temperature_unconstrained (t : ℚ) :
    decodeCompletionRequest (.obj [("model", .str "m"), ("messages", .arr []),
      ("max_tokens", .num 1), ("temperature", .num t)]) =
      .ok ⟨"m", [], 1, some t, none, none, none, none⟩ := rfl
